import Mathlib

/-!
Verification of the simulation core of an isometric city-builder game:
the deterministic coordinate hash, the building catalog, the tile grid
model, the road-adjacency queries and the renderer's procedural-variant
selection, shallowly embedded from the TypeScript source
(constants.tsx and the scene component file).
-/

namespace SkyMetropolis

/-- The closed enumeration of building types (types.ts / constants.tsx). -/
inductive BuildingType where
  | none
  | road
  | residential
  | commercial
  | industrial
  | park
  | restaurant
  | hotel
  | hospital
  | airport
deriving DecidableEq, Repr

/-- One record of the static building catalog (constants.tsx).
Numeric fields are modelled as integers; `incomeGen` may be negative. -/
structure BuildingConfig where
  type : BuildingType
  cost : Int
  name : String
  description : String
  color : String
  popGen : Int
  incomeGen : Int
deriving DecidableEq, Repr

/-- The static catalog `BUILDINGS : Record<BuildingType, BuildingConfig>`
from constants.tsx, entry for entry. -/
def BUILDINGS : BuildingType → BuildingConfig
  | BuildingType.none =>
      { type := BuildingType.none, cost := 0, name := "Bulldoze",
        description := "Clear a tile", color := "#ef4444",
        popGen := 0, incomeGen := 0 }
  | BuildingType.road =>
      { type := BuildingType.road, cost := 10, name := "Road",
        description := "Connects buildings.", color := "#374151",
        popGen := 0, incomeGen := 0 }
  | BuildingType.residential =>
      { type := BuildingType.residential, cost := 100, name := "House",
        description := "+5 Pop/day", color := "#f87171",
        popGen := 5, incomeGen := 0 }
  | BuildingType.commercial =>
      { type := BuildingType.commercial, cost := 200, name := "Shop",
        description := "+$15/day", color := "#60a5fa",
        popGen := 0, incomeGen := 15 }
  | BuildingType.industrial =>
      { type := BuildingType.industrial, cost := 400, name := "Factory",
        description := "+$40/day", color := "#facc15",
        popGen := 0, incomeGen := 40 }
  | BuildingType.park =>
      { type := BuildingType.park, cost := 50, name := "Park",
        description := "Looks nice.", color := "#4ade80",
        popGen := 1, incomeGen := 0 }
  | BuildingType.restaurant =>
      { type := BuildingType.restaurant, cost := 150, name := "Diner",
        description := "+$25/day", color := "#fb923c",
        popGen := 0, incomeGen := 25 }
  | BuildingType.hotel =>
      { type := BuildingType.hotel, cost := 300, name := "Hotel",
        description := "+$35/day", color := "#a78bfa",
        popGen := 0, incomeGen := 35 }
  | BuildingType.hospital =>
      { type := BuildingType.hospital, cost := 600, name := "Hospital",
        description := "+10 Pop/day, Costs $20/day", color := "#f43f5e",
        popGen := 10, incomeGen := -20 }
  | BuildingType.airport =>
      { type := BuildingType.airport, cost := 2000, name := "Airport",
        description := "Unique. +$120/day. Planes!", color := "#0ea5e9",
        popGen := 15, incomeGen := 120 }

/-- One tile of the grid: a building type and an optional construction
countdown (`constructionTimeLeft?: number` in types.ts). -/
structure TileData where
  buildingType : BuildingType
  constructionTimeLeft : Option Nat
deriving DecidableEq, Repr

/-- The grid is a list of rows of tiles, addressed `grid[row][col]`. -/
abbrev Grid := List (List TileData)

/-- Fallback tile used only for the total `getD` lookups; every in-bounds
access below is shown to hit a real element, never this fallback. -/
def emptyTile : TileData :=
  { buildingType := BuildingType.none, constructionTimeLeft := Option.none }

/-- `grid[y][x]` lookup as the renderer performs it (row index `y`,
column index `x`), made total with the fallback tile. -/
def tileAt (grid : Grid) (x y : Int) : TileData :=
  (grid.getD y.toNat []).getD x.toNat emptyTile

/-- `isRoad(grid, r, c)` from the scene file: out-of-bounds (against the
row count and the first row's length) is `false`, otherwise the tile's
building type is compared with `Road`. -/
def isRoad (grid : Grid) (r c : Int) : Bool :=
  if r < 0 ∨ (grid.length : Int) ≤ r ∨ c < 0 ∨ ((grid.headD []).length : Int) ≤ c then
    false
  else
    decide (((grid.getD r.toNat []).getD c.toNat emptyTile).buildingType = BuildingType.road)

/-- The two travel axes of ambient cars, `'x' | 'z'` in the source. -/
inductive Axis where
  | x
  | z
deriving DecidableEq, Repr

/-- `getRoadAxis(grid, x, y)` from the scene file: vertical only when a
road is above or below and none is left or right. -/
def getRoadAxis (grid : Grid) (x y : Int) : Axis :=
  let h := isRoad grid y (x - 1) || isRoad grid y (x + 1)
  let v := isRoad grid (y - 1) x || isRoad grid (y + 1) x
  if v && !h then Axis.z else Axis.x

/-- The neighbor count computed inline in `IsoMap` for a road tile:
the number of the four orthogonal neighbors that are roads. -/
def intersectionDegree (grid : Grid) (x y : Int) : Nat :=
  (if isRoad grid y (x - 1) then 1 else 0) +
  (if isRoad grid y (x + 1) then 1 else 0) +
  (if isRoad grid (y - 1) x then 1 else 0) +
  (if isRoad grid (y + 1) x then 1 else 0)

/-- `isIntersection` as computed in `IsoMap`: at least 3 road neighbors. -/
def isIntersection (grid : Grid) (x y : Int) : Bool :=
  decide (3 ≤ intersectionDegree grid x y)

/-- `getHash(x, y)` from the scene file:
`Math.abs(Math.sin(x * 12.9898 + y * 78.233) * 43758.5453) % 1`,
modelled over the reals.  JavaScript `a % 1` on a non-negative finite
`a` equals `a - floor(a)`, i.e. the fractional part. -/
noncomputable def getHash (x y : Int) : ℝ :=
  Int.fract |Real.sin ((x : ℝ) * 12.9898 + (y : ℝ) * 78.233) * 43758.5453|

/-- The variant index picked by `ProceduralBuilding`:
`Math.floor(hash * 100)`. -/
noncomputable def buildingVariant (x y : Int) : Int :=
  Int.floor (getHash x y * 100)

/-- The rotation picked by `ProceduralBuilding`:
`Math.floor(hash * 4) * (Math.PI / 2)`. -/
noncomputable def buildingRotation (x y : Int) : ℝ :=
  (Int.floor (getHash x y * 4) : ℝ) * (Real.pi / 2)

/-- The ten-entry car color array used in `IsoMap`. -/
def carColors : List String :=
  ["#ef4444", "#3b82f6", "#eab308", "#22c55e", "#a855f7",
   "#ffffff", "#1f2937", "#94a3b8", "#fb923c", "#06b6d4"]

/-- The car-color index in `IsoMap`: `Math.floor(hash * 10)`. -/
noncomputable def carColorIndex (x y : Int) : Int :=
  Int.floor (getHash x y * 10)

/-- JavaScript `%` on numbers: the truncated remainder
`a - b * trunc(a / b)`, written with floor/ceil split on the sign. -/
noncomputable def jsRem (a b : ℝ) : ℝ :=
  a - b * (if 0 ≤ a / b then ((Int.floor (a / b) : Int) : ℝ)
           else ((Int.ceil (a / b) : Int) : ℝ))

/-- The car body variant in `Car`: `Math.floor((seed * 100) % 4)`. -/
noncomputable def carType (seed : ℝ) : Int :=
  Int.floor (jsRem (seed * 100) 4)

/-- The props of an ambient `Car` element as instantiated by `IsoMap`. -/
structure CarProps where
  axis : Axis
  color : String
  seed : ℝ

/-- The car placed on a road tile by `IsoMap`: none at an intersection
(a traffic light is shown instead), otherwise present iff
`hash > 0.4`, with axis, color and seed derived from the grid and hash. -/
noncomputable def roadCar (grid : Grid) (x y : Int) : Option CarProps :=
  if isIntersection grid x y then Option.none
  else if getHash x y > 0.4 then
    Option.some
      { axis := getRoadAxis grid x y,
        color := carColors.getD (carColorIndex x y).toNat "",
        seed := getHash x y }
  else Option.none

/-- The pedestrian placed on a road tile by `IsoMap`: present iff
`hash < 0.2`, with the hash as its seed. -/
noncomputable def roadPerson (x y : Int) : Option ℝ :=
  if getHash x y < 0.2 then Option.some (getHash x y) else Option.none

/-- The ambient decoration `IsoMap` places on a tile: the optional car
and the optional pedestrian, both only rendered on road tiles. -/
noncomputable def roadDecor (grid : Grid) (x y : Int) : Option CarProps × Option ℝ :=
  if (tileAt grid x y).buildingType = BuildingType.road then
    (roadCar grid x y, roadPerson x y)
  else (Option.none, Option.none)

/-- The JavaScript truthiness test `tile.constructionTimeLeft &&
tile.constructionTimeLeft > 0` used by the renderer (and, in the spec's
tick engine, the negation of "active"): the field is present and
positive. -/
def underConstruction (t : TileData) : Bool :=
  match t.constructionTimeLeft with
  | Option.some n => decide (0 < n)
  | Option.none => false

/-- What `IsoMap` renders above the base tile for a building slot. -/
inductive TileRender where
  | nothing
  | constructionSite (timeLeft : Nat)
  | finishedBuilding (t : BuildingType)
deriving DecidableEq, Repr

/-- The building-rendering branch of `IsoMap`: nothing for `None` and
`Road` tiles, a construction site while `constructionTimeLeft` is
present and positive, the finished procedural building otherwise. -/
def renderBuilding (t : TileData) : TileRender :=
  if t.buildingType = BuildingType.none ∨ t.buildingType = BuildingType.road then
    TileRender.nothing
  else
    match t.constructionTimeLeft with
    | Option.some n =>
        if 0 < n then TileRender.constructionSite n
        else TileRender.finishedBuilding t.buildingType
    | Option.none => TileRender.finishedBuilding t.buildingType

/-- Modelled from the spec: the tick engine is not part of the given
source (only the catalog and renderer are), so its aggregation step is
taken from the spec's words: a tile contributes its catalog `incomeGen`
exactly when it is active, i.e. not under construction. -/
def incomeContrib (t : TileData) : Int :=
  if underConstruction t then 0 else (BUILDINGS t.buildingType).incomeGen

/-- Modelled from the spec: the population contribution of a tile,
its catalog `popGen` exactly when the tile is active. -/
def popContrib (t : TileData) : Int :=
  if underConstruction t then 0 else (BUILDINGS t.buildingType).popGen

/-- Modelled from the spec: the tick engine's `totalIncome`, the sum of
the income contributions over every tile of the grid. -/
def totalIncome (grid : Grid) : Int :=
  (grid.flatten.map incomeContrib).sum

/-- Rectangularity of a grid: every row has the first row's length. -/
def rectangular (grid : Grid) : Prop :=
  ∀ row ∈ grid, row.length = (grid.headD []).length

/-- C1: `getHash` is pure and stable — repeated evaluation at the same
pair of integers is the identical value, it depends on nothing but its
arguments — and every returned value lies in the half-open interval
[0, 1). -/
theorem getHash_pure_stable_range (x y : Int) :
    getHash x y = getHash x y ∧ 0 ≤ getHash x y ∧ getHash x y < 1 :=
  ⟨rfl, Int.fract_nonneg _, Int.fract_lt_one _⟩

/-- C2 counterexample: the claim asserts that the `Road` catalog entry
has cost 0; in the source its cost is 10, which is not 0. -/
theorem BUILDINGS_road_cost_ten_not_zero :
    (BUILDINGS BuildingType.road).cost = 10 ∧
    ¬ (BUILDINGS BuildingType.road).cost = 0 :=
  ⟨rfl, by decide⟩

/-- C2 (amended): the catalog is total over the closed `BuildingType`
set (every variant has an entry, tagged with its own type); the `None`
entry has cost, popGen and incomeGen all 0; the `Road` entry has popGen
and incomeGen 0 and a nonzero cost of 10. -/
theorem BUILDINGS_catalog_total_none_road :
    (∀ t : BuildingType, (BUILDINGS t).type = t) ∧
    (BUILDINGS BuildingType.none).cost = 0 ∧
    (BUILDINGS BuildingType.none).popGen = 0 ∧
    (BUILDINGS BuildingType.none).incomeGen = 0 ∧
    (BUILDINGS BuildingType.road).popGen = 0 ∧
    (BUILDINGS BuildingType.road).incomeGen = 0 ∧
    (BUILDINGS BuildingType.road).cost = 10 ∧
    (BUILDINGS BuildingType.road).cost ≠ 0 := by
  refine ⟨fun t => ?_, rfl, rfl, rfl, rfl, rfl, rfl, by decide⟩
  cases t <;> rfl

/-- C3: for an in-grid road tile, the neighbor count of `IsoMap` equals
the number of the four orthogonal neighbors that are roads, the tile is
an intersection exactly when that count is at least 3, a road tile with
road on all four sides has degree 4 and is an intersection, and a road
tile with exactly two opposite road neighbors is not. -/
theorem intersectionDegree_spec (grid : Grid) (x y : Int)
    (hx : 0 ≤ x ∧ x < ((grid.headD []).length : Int))
    (hy : 0 ≤ y ∧ y < (grid.length : Int))
    (hroad : (tileAt grid x y).buildingType = BuildingType.road) :
    intersectionDegree grid x y =
      (([(x - 1, y), (x + 1, y), (x, y - 1), (x, y + 1)] : List (Int × Int)).filter
        (fun p => isRoad grid p.2 p.1)).length ∧
    (isIntersection grid x y = true ↔ 3 ≤ intersectionDegree grid x y) ∧
    ((isRoad grid y (x - 1) = true ∧ isRoad grid y (x + 1) = true ∧
      isRoad grid (y - 1) x = true ∧ isRoad grid (y + 1) x = true) →
      intersectionDegree grid x y = 4 ∧ isIntersection grid x y = true) ∧
    (((isRoad grid y (x - 1) = true ∧ isRoad grid y (x + 1) = true ∧
       isRoad grid (y - 1) x = false ∧ isRoad grid (y + 1) x = false) ∨
      (isRoad grid y (x - 1) = false ∧ isRoad grid y (x + 1) = false ∧
       isRoad grid (y - 1) x = true ∧ isRoad grid (y + 1) x = true)) →
      isIntersection grid x y = false) := by
  cases h1 : isRoad grid y (x - 1) <;> cases h2 : isRoad grid y (x + 1) <;>
    cases h3 : isRoad grid (y - 1) x <;> cases h4 : isRoad grid (y + 1) x <;>
    simp [intersectionDegree, isIntersection, List.filter, h1, h2, h3, h4]

/-- A road tile with no timer, for concrete test grids. -/
def roadTile : TileData :=
  { buildingType := BuildingType.road, constructionTimeLeft := Option.none }

/-- A 3 by 3 grid whose middle row and middle column are road. -/
def crossGrid : Grid :=
  [[emptyTile, roadTile, emptyTile],
   [roadTile, roadTile, roadTile],
   [emptyTile, roadTile, emptyTile]]

theorem intersectionDegree_spec_witness :
    intersectionDegree crossGrid 1 1 = 4 ∧ isIntersection crossGrid 1 1 = true :=
  (intersectionDegree_spec crossGrid 1 1 (by decide) (by decide) (by decide)).2.2.1
    (by decide)

/-- C4: `getRoadAxis` returns the vertical axis exactly when a road is
above or below and no road is left or right; in every other case —
including the tie with both kinds of neighbors and the case with no
road neighbor at all — it returns the horizontal axis. -/
theorem getRoadAxis_policy (grid : Grid) (x y : Int) :
    (getRoadAxis grid x y = Axis.z ↔
      ((isRoad grid (y - 1) x = true ∨ isRoad grid (y + 1) x = true) ∧
       ¬(isRoad grid y (x - 1) = true ∨ isRoad grid y (x + 1) = true))) ∧
    (getRoadAxis grid x y = Axis.x ↔
      ¬((isRoad grid (y - 1) x = true ∨ isRoad grid (y + 1) x = true) ∧
        ¬(isRoad grid y (x - 1) = true ∨ isRoad grid y (x + 1) = true))) := by
  cases h1 : isRoad grid y (x - 1) <;> cases h2 : isRoad grid y (x + 1) <;>
    cases h3 : isRoad grid (y - 1) x <;> cases h4 : isRoad grid (y + 1) x <;>
    simp [getRoadAxis, h1, h2, h3, h4]

/-- C5: on a rectangular non-empty grid, `isRoad` is total — an
out-of-bounds coordinate yields `false`, and an in-bounds coordinate
hits a real element of the grid (both lookups succeed, never a
fallback), with `isRoad` true exactly when that tile is a road. -/
theorem isRoad_total_bounds (grid : Grid) (r c : Int)
    (hrect : rectangular grid) (hne : grid ≠ []) :
    ((r < 0 ∨ (grid.length : Int) ≤ r ∨ c < 0 ∨ ((grid.headD []).length : Int) ≤ c) →
      isRoad grid r c = false) ∧
    ((0 ≤ r ∧ r < (grid.length : Int) ∧ 0 ≤ c ∧ c < ((grid.headD []).length : Int)) →
      ∃ row t, grid.get? r.toNat = Option.some row ∧ row.get? c.toNat = Option.some t ∧
        (isRoad grid r c = true ↔ t.buildingType = BuildingType.road)) := by
  constructor
  · intro hout
    unfold isRoad
    rw [if_pos hout]
  · rintro ⟨hr0, hr1, hc0, hc1⟩
    have hr : r.toNat < grid.length := by omega
    have hrow : grid.getD r.toNat [] = grid.get ⟨r.toNat, hr⟩ := List.getD_eq_get _ _ hr
    have hmem : grid.get ⟨r.toNat, hr⟩ ∈ grid := List.get_mem _ _ _
    have hlen : (grid.get ⟨r.toNat, hr⟩).length = (grid.headD []).length := hrect _ hmem
    have hc : c.toNat < (grid.get ⟨r.toNat, hr⟩).length := by omega
    refine ⟨grid.get ⟨r.toNat, hr⟩, (grid.get ⟨r.toNat, hr⟩).get ⟨c.toNat, hc⟩,
      List.get?_eq_get hr, List.get?_eq_get hc, ?_⟩
    unfold isRoad
    rw [if_neg (by omega), hrow, List.getD_eq_get _ _ hc]
    simp

/-- A one-row grid with a road at column 0 and grass at column 1. -/
def demoRow : Grid := [[roadTile, emptyTile]]

theorem isRoad_total_bounds_witness :
    isRoad demoRow 5 0 = false ∧
    ∃ row t, demoRow.get? (0 : Int).toNat = Option.some row ∧
      row.get? (0 : Int).toNat = Option.some t ∧
      (isRoad demoRow 0 0 = true ↔ t.buildingType = BuildingType.road) :=
  ⟨(isRoad_total_bounds demoRow 5 0 (by unfold rectangular; decide) (by decide)).1
      (by decide),
   (isRoad_total_bounds demoRow 0 0 (by unfold rectangular; decide) (by decide)).2
      (by decide)⟩

/-- Income of a list of tiles in which every active tile is `None`,
`Road`, `Commercial` or `Hospital`: 15 per active Commercial tile and
-20 per active Hospital tile, since the other two types earn 0. -/
theorem incomeSum_allowed (l : List TileData)
    (hall : ∀ t ∈ l, underConstruction t = false →
      t.buildingType = BuildingType.none ∨ t.buildingType = BuildingType.road ∨
      t.buildingType = BuildingType.commercial ∨ t.buildingType = BuildingType.hospital) :
    (l.map incomeContrib).sum =
      15 * ((l.filter (fun t => !underConstruction t &&
              decide (t.buildingType = BuildingType.commercial))).length : Int) -
      20 * ((l.filter (fun t => !underConstruction t &&
              decide (t.buildingType = BuildingType.hospital))).length : Int) := by
  induction l with
  | nil => simp
  | cons t l ih =>
    have ht := hall t (List.mem_cons_self t l)
    have hl := fun u hu => hall u (List.mem_cons_of_mem t hu)
    cases hu : underConstruction t with
    | true =>
      simp only [List.map_cons, List.sum_cons, List.filter_cons, hu, incomeContrib,
        if_pos, Bool.not_true, Bool.false_and, if_neg, Bool.false_eq_true,
        ite_false, ih hl]
      omega
    | false =>
      rcases ht hu with h | h | h | h <;>
        simp [List.filter_cons, hu, incomeContrib, h, BUILDINGS, ih hl] <;>
        omega

/-- C6 (tick engine modelled from the spec): a grid whose active tiles
are one Commercial, one Hospital and otherwise only `None` or `Road`
tiles aggregates to `totalIncome = -5`, from the catalog's incomeGen of
15 for Commercial and -20 for Hospital. -/
theorem tick_totalIncome_commercial_hospital (grid : Grid)
    (hall : ∀ t ∈ grid.flatten, underConstruction t = false →
      t.buildingType = BuildingType.none ∨ t.buildingType = BuildingType.road ∨
      t.buildingType = BuildingType.commercial ∨ t.buildingType = BuildingType.hospital)
    (hc : (grid.flatten.filter (fun t => !underConstruction t &&
            decide (t.buildingType = BuildingType.commercial))).length = 1)
    (hh : (grid.flatten.filter (fun t => !underConstruction t &&
            decide (t.buildingType = BuildingType.hospital))).length = 1) :
    totalIncome grid = -5 := by
  unfold totalIncome
  rw [incomeSum_allowed _ hall, hc, hh]
  norm_num

/-- A one-row city with one finished shop and one finished hospital. -/
def demoCity : Grid :=
  [[{ buildingType := BuildingType.commercial, constructionTimeLeft := Option.none },
    { buildingType := BuildingType.hospital, constructionTimeLeft := Option.none },
    emptyTile]]

theorem tick_totalIncome_commercial_hospital_witness :
    totalIncome demoCity = -5 :=
  tick_totalIncome_commercial_hospital demoCity (by decide) (by decide) (by decide)

/-- C7: a tile holding a real building (neither `None` nor `Road`) is
under construction exactly when `constructionTimeLeft` is present and
positive; such a tile contributes no income or population and renders
as a construction site, while a tile with the field absent or 0 renders
as the finished building. -/
theorem construction_gating (t : TileData)
    (h1 : t.buildingType ≠ BuildingType.none)
    (h2 : t.buildingType ≠ BuildingType.road) :
    (underConstruction t = true ↔
      ∃ n, t.constructionTimeLeft = Option.some n ∧ 0 < n) ∧
    (underConstruction t = true →
      (∃ n, t.constructionTimeLeft = Option.some n ∧ 0 < n ∧
        renderBuilding t = TileRender.constructionSite n) ∧
      incomeContrib t = 0 ∧ popContrib t = 0) ∧
    (underConstruction t = false →
      renderBuilding t = TileRender.finishedBuilding t.buildingType) := by
  obtain ⟨bt, ctl⟩ := t
  simp only [ne_eq] at h1 h2
  cases ctl with
  | none =>
      simp [underConstruction, renderBuilding, h1, h2]
  | some n =>
      rcases Nat.eq_zero_or_pos n with h | h
      · subst h
        simp [underConstruction, renderBuilding, h1, h2]
      · simp [underConstruction, renderBuilding, incomeContrib, popContrib,
          h1, h2, h]

/-- A house three ticks away from completion. -/
def buildingTile : TileData :=
  { buildingType := BuildingType.residential, constructionTimeLeft := Option.some 3 }

theorem construction_gating_witness :
    (∃ n, buildingTile.constructionTimeLeft = Option.some n ∧ 0 < n ∧
      renderBuilding buildingTile = TileRender.constructionSite n) ∧
    incomeContrib buildingTile = 0 ∧ popContrib buildingTile = 0 :=
  (construction_gating buildingTile (by decide) (by decide)).2.1 (by decide)

/-- C8: the rotation of a procedural building is
`floor(hash * 4) * (pi / 2)`, one of the four quarter turns, and the
variant index `floor(hash * 100)` always lies in 0..99; both are
functions of the tile coordinates alone. -/
theorem procedural_rotation_variant (x y : Int) :
    (buildingRotation x y = 0 ∨ buildingRotation x y = Real.pi / 2 ∨
     buildingRotation x y = Real.pi ∨ buildingRotation x y = 3 * Real.pi / 2) ∧
    0 ≤ buildingVariant x y ∧ buildingVariant x y ≤ 99 ∧
    buildingRotation x y = buildingRotation x y ∧
    buildingVariant x y = buildingVariant x y := by
  have h0 : (0:ℝ) ≤ getHash x y := Int.fract_nonneg _
  have h1 : getHash x y < 1 := Int.fract_lt_one _
  refine ⟨?_, ?_, ?_, rfl, rfl⟩
  · have hk0 : (0:Int) ≤ Int.floor (getHash x y * 4) :=
      Int.floor_nonneg.mpr (by nlinarith)
    have hk4 : Int.floor (getHash x y * 4) < 4 :=
      Int.floor_lt.mpr (by push_cast; nlinarith)
    unfold buildingRotation
    revert hk0 hk4
    generalize Int.floor (getHash x y * 4) = k
    intro hk0 hk4
    interval_cases k
    · exact Or.inl (by push_cast; ring)
    · exact Or.inr (Or.inl (by push_cast; ring))
    · exact Or.inr (Or.inr (Or.inl (by push_cast; ring)))
    · exact Or.inr (Or.inr (Or.inr (by push_cast; ring)))
  · exact Int.floor_nonneg.mpr (by nlinarith)
  · have : buildingVariant x y < 100 :=
      Int.floor_lt.mpr (by push_cast; nlinarith)
    omega

/-- C9: the ambient decoration of a non-intersection road tile is a
pure function of the grid and the coordinates — re-evaluating it on the
same grid gives the identical agents, with no stored per-tile state —
and it shows a car exactly when `hash > 0.4` (axis, color and seed
derived only from the hash and the road neighbors) and a pedestrian
exactly when `hash < 0.2`. -/
theorem roadDecor_deterministic (grid : Grid) (x y : Int)
    (hroad : (tileAt grid x y).buildingType = BuildingType.road)
    (hni : isIntersection grid x y = false) :
    roadDecor grid x y = roadDecor grid x y ∧
    ((roadDecor grid x y).1.isSome = true ↔ getHash x y > 0.4) ∧
    (∀ c : CarProps, (roadDecor grid x y).1 = Option.some c →
      c.axis = getRoadAxis grid x y ∧
      c.color = carColors.getD (carColorIndex x y).toNat "" ∧
      c.seed = getHash x y) ∧
    ((roadDecor grid x y).2.isSome = true ↔ getHash x y < 0.2) := by
  have hfst : (roadDecor grid x y).1 =
      (if getHash x y > 0.4 then
        Option.some
          { axis := getRoadAxis grid x y,
            color := carColors.getD (carColorIndex x y).toNat "",
            seed := getHash x y }
      else (Option.none : Option CarProps)) := by
    unfold roadDecor roadCar
    rw [if_pos hroad]
    simp [hni]
  have hsnd : (roadDecor grid x y).2 =
      (if getHash x y < 0.2 then Option.some (getHash x y)
       else (Option.none : Option ℝ)) := by
    unfold roadDecor roadPerson
    rw [if_pos hroad]
  refine ⟨rfl, ?_, ?_, ?_⟩
  · rw [hfst]; split_ifs with h <;> simp [h]
  · intro c hc
    rw [hfst] at hc
    split_ifs at hc with h
    · obtain rfl := (Option.some_inj.mp hc).symm
      exact ⟨rfl, rfl, rfl⟩
  · rw [hsnd]; split_ifs with h <;> simp [h]

theorem roadDecor_deterministic_witness :
    ((roadDecor demoRow 0 0).1.isSome = true ↔ getHash 0 0 > 0.4) ∧
    ((roadDecor demoRow 0 0).2.isSome = true ↔ getHash 0 0 < 0.2) :=
  ⟨(roadDecor_deterministic demoRow 0 0 (by decide) (by decide)).2.1,
   (roadDecor_deterministic demoRow 0 0 (by decide) (by decide)).2.2.2⟩

/-- C10: every hash-derived index of the renderer is in bounds — the
car-color index `floor(hash * 10)` lies in 0..9, so the lookup in the
ten-entry color array always succeeds, and the car type
`floor((seed * 100) % 4)` is one of 0, 1, 2, 3, so exactly one car
variant branch is selected. -/
theorem hash_indices_in_bounds (x y : Int) :
    carColors.length = 10 ∧
    0 ≤ carColorIndex x y ∧ carColorIndex x y ≤ 9 ∧
    (carColors.get? (carColorIndex x y).toNat).isSome = true ∧
    (carType (getHash x y) = 0 ∨ carType (getHash x y) = 1 ∨
     carType (getHash x y) = 2 ∨ carType (getHash x y) = 3) := by
  have h0 : (0:ℝ) ≤ getHash x y := Int.fract_nonneg _
  have h1 : getHash x y < 1 := Int.fract_lt_one _
  have hi0 : (0:Int) ≤ carColorIndex x y :=
    Int.floor_nonneg.mpr (by nlinarith)
  have hi10 : carColorIndex x y < 10 :=
    Int.floor_lt.mpr (by push_cast; nlinarith)
  have hlt : (carColorIndex x y).toNat < carColors.length := by
    simp only [carColors, List.length_cons, List.length_nil]
    omega
  refine ⟨rfl, hi0, by omega, ?_, ?_⟩
  · rw [List.get?_eq_get hlt]; rfl
  · have hq0 : (0:ℝ) ≤ getHash x y * 100 / 4 := by nlinarith
    unfold carType jsRem
    rw [if_pos hq0]
    have key : getHash x y * 100 - 4 * ((Int.floor (getHash x y * 100 / 4) : Int) : ℝ) =
        4 * Int.fract (getHash x y * 100 / 4) := by
      unfold Int.fract
      ring
    rw [key]
    have hf0 : (0:ℝ) ≤ Int.fract (getHash x y * 100 / 4) := Int.fract_nonneg _
    have hf1 : Int.fract (getHash x y * 100 / 4) < 1 := Int.fract_lt_one _
    have hb0 : (0:Int) ≤ Int.floor (4 * Int.fract (getHash x y * 100 / 4)) :=
      Int.floor_nonneg.mpr (by nlinarith)
    have hb4 : Int.floor (4 * Int.fract (getHash x y * 100 / 4)) < 4 :=
      Int.floor_lt.mpr (by push_cast; nlinarith)
    omega

end SkyMetropolis
